import Mathlib

/-!
Verification of the sidecar process supervisor of the hardware-monitoring
tray widget.

The development shallowly embeds the Rust sources:

* `src-tauri/src/services/sidecar.rs` — supervisor, shared state store,
  status classifier, reader loop, restart watchdog (types and functions in
  the root namespace and the `Machine` step relation);
* `src-tauri/src/services/mod.rs` — the stub sidecar types the merge code
  in `lib.rs` actually compiles against (namespace `Stub`);
* `src-tauri/src/models/stats.rs` — the baseline statistics record;
* `src-tauri/src/lib.rs` (`start_stats_emitter`) — the merge engine
  (`mergeStats`).

Conventions: Rust `f32` sensor values are modelled as `ℚ` (the claims only
concern presence/absence and exact transfer of values, never rounding);
`u32`/`u64`/`usize` as `ℕ`; `i64` as `ℤ`; `Instant`s as a millisecond
clock passed explicitly to the operations that read it.  A `Result`-free
lock acquisition that the source degrades on (`.ok()`, `if let Ok`) is
modelled for the restart-counter lock by the `countPoisoned` flag; the
other locks are modelled as always acquirable.
-/

/-! ## String helpers (Rust `str::contains` and `str::to_lowercase`) -/

/-- Check whether the list `need` is an initial segment of `hay`
(`<[char]>::starts_with` semantics). -/
def listStarts : List Char → List Char → Bool
  | [], _ => true
  | _ :: _, [] => false
  | a :: as, b :: bs => a == b && listStarts as bs

/-- Check whether `need` occurs contiguously inside `hay`. -/
def listInfix (need : List Char) : List Char → Bool
  | [] => listStarts need []
  | b :: bs => listStarts need (b :: bs) || listInfix need bs

/-- Rust `str::contains` on substrings: `hay.contains(need)`. -/
def strContains (hay need : String) : Bool :=
  listInfix need.data hay.data

/-- Rust `str::to_lowercase`, restricted to the ASCII lowercasing the
classifier's patterns exercise. -/
def strToLower (s : String) : String :=
  ⟨s.data.map Char.toLower⟩

/-- Rust `str::trim`: drop leading and trailing whitespace. -/
def strTrim (s : String) : String :=
  ⟨((s.data.dropWhile Char.isWhitespace).reverse.dropWhile Char.isWhitespace).reverse⟩

/-! ## Data model (`sidecar.rs`) -/

/-- `SidecarCpuData` from `sidecar.rs`; `f32` fields are `ℚ`. -/
structure SidecarCpuData where
  name : Option String
  temperature : Option ℚ
  package_temperature : Option ℚ
  core_temperatures : List (Option ℚ)
  max_temperature : Option ℚ
  power : Option ℚ
  core_powers : List (Option ℚ)
  deriving DecidableEq

/-- `SidecarGpuData` from `sidecar.rs`. -/
structure SidecarGpuData where
  name : Option String
  vendor : Option String
  temperature : Option ℚ
  hot_spot_temperature : Option ℚ
  power : Option ℚ
  core_clock : Option ℚ
  memory_clock : Option ℚ
  fan_speed : Option ℚ
  load : Option ℚ
  deriving DecidableEq

/-- `SidecarData` from `sidecar.rs`: one decoded snapshot line. -/
structure SidecarData where
  cpu : Option SidecarCpuData
  gpu : List SidecarGpuData
  timestamp : ℤ
  error : Option String
  deriving DecidableEq

/-- `SidecarStatus` from `sidecar.rs`. -/
inductive SidecarStatus where
  | NotStarted
  | Running
  | Stopped
  | Error (msg : String)
  deriving DecidableEq

/-- `SidecarStatusInfo` from `sidecar.rs` (UI-facing classification). -/
inductive SidecarStatusInfo where
  | NotStarted
  | Running
  | Stopped
  | Error (msg : String)
  | RequiresAdmin
  | BinaryNotFound
  deriving DecidableEq

/-- `impl From<&SidecarStatus> for SidecarStatusInfo` in `sidecar.rs`:
the status classifier.  Note that the first group of patterns is matched
against `msg.to_lowercase()` but the second group against `msg` itself. -/
def SidecarStatusInfo.ofStatus : SidecarStatus → SidecarStatusInfo
  | .NotStarted => .NotStarted
  | .Running => .Running
  | .Stopped => .Stopped
  | .Error msg =>
    if strContains (strToLower msg) "admin"
        || strContains (strToLower msg) "access denied"
        || strContains (strToLower msg) "permission" then
      .RequiresAdmin
    else if strContains msg "not found" || strContains msg "binary" then
      .BinaryNotFound
    else
      .Error msg

/-! ## Shared state store (`SidecarState` in `sidecar.rs`) -/

/-- `MAX_RESTART_ATTEMPTS` in `sidecar.rs`. -/
def MAX_RESTART_ATTEMPTS : Nat := 3

/-- `STALL_TIMEOUT_SECS` in `sidecar.rs`. -/
def STALL_TIMEOUT_SECS : Nat := 10

/-- `SidecarState` from `sidecar.rs`.  `lastDataTime` is the stored
`Instant` as a millisecond clock value; `countPoisoned` records whether
the `restart_count` lock is poisoned (a panic while held), the case the
accessors degrade on. -/
structure SidecarState where
  data : Option SidecarData
  status : SidecarStatus
  restartCount : Nat
  lastDataTime : Option Nat
  countPoisoned : Bool
  deriving DecidableEq

/-- `SidecarState::new`. -/
def SidecarState.new : SidecarState :=
  { data := none, status := .NotStarted, restartCount := 0,
    lastDataTime := none, countPoisoned := false }

/-- `SidecarState::get_data`. -/
def get_data (st : SidecarState) : Option SidecarData :=
  st.data

/-- `SidecarState::set_status`. -/
def set_status (status : SidecarStatus) (st : SidecarState) : SidecarState :=
  { st with status := status }

/-- `SidecarState::get_status`. -/
def get_status (st : SidecarState) : SidecarStatus :=
  st.status

/-- `SidecarState::set_data`; `now` is `Instant::now()` in milliseconds.
Sets status to `Error` when the snapshot carries an error message, always
refreshes the last-data time, then stores the snapshot. -/
def set_data (now : Nat) (data : SidecarData) (st : SidecarState) : SidecarState :=
  let st1 := match data.error with
    | some err => set_status (.Error err) st
    | none => st
  let st2 := { st1 with lastDataTime := some now }
  { st2 with data := some data }

/-- `SidecarState::increment_restart_count`: returns the new count and the
updated store; on a poisoned lock returns `0` and leaves the store as is. -/
def increment_restart_count (st : SidecarState) : Nat × SidecarState :=
  if st.countPoisoned then (0, st)
  else (st.restartCount + 1, { st with restartCount := st.restartCount + 1 })

/-- `SidecarState::reset_restart_count` (no-op on a poisoned lock). -/
def reset_restart_count (st : SidecarState) : SidecarState :=
  if st.countPoisoned then st else { st with restartCount := 0 }

/-- `SidecarState::get_restart_count` (`0` on a poisoned lock). -/
def get_restart_count (st : SidecarState) : Nat :=
  if st.countPoisoned then 0 else st.restartCount

/-- `SidecarState::can_restart`. -/
def can_restart (st : SidecarState) : Bool :=
  decide (get_restart_count st < MAX_RESTART_ATTEMPTS)

/-- `SidecarState::is_stalled`; `now` is the current millisecond clock.
`Instant::elapsed().as_secs()` is the truncating division by 1000. -/
def is_stalled (now : Nat) (st : SidecarState) : Bool :=
  match st.lastDataTime with
  | some t => decide ((now - t) / 1000 > STALL_TIMEOUT_SECS)
  | none => false

/-! ## Reader loop body (`spawn_process` / `spawn_standalone` in `sidecar.rs`) -/

/-- Handling of one successfully decoded snapshot in the reader loop:
set status to `Running` unless it already is, then `set_data`. -/
def handleData (now : Nat) (d : SidecarData) (st : SidecarState) : SidecarState :=
  let st1 := if get_status st ≠ SidecarStatus.Running then set_status .Running st else st
  set_data now d st1

/-- One iteration of the reader loop on a line of text: trim, skip when
empty, decode (`decode` stands for `serde_json::from_str::<SidecarData>`),
skip on decode failure, otherwise accept the snapshot. -/
def processLine (decode : String → Option SidecarData) (now : Nat)
    (line : String) (st : SidecarState) : SidecarState :=
  let json_str := strTrim line
  if json_str = "" then st
  else
    match decode json_str with
    | some data => handleData now data st
    | none => st

/-! ## Stub sidecar types (`services/mod.rs`)

`lib.rs` compiles against these stub types (`services/mod.rs` does not
declare the `sidecar` module), so the merge engine below is typed with
them. -/

namespace Stub

/-- Stub `SidecarCpuData` from `services/mod.rs`. -/
structure SidecarCpuData where
  temperature : Option ℚ
  deriving DecidableEq

/-- Stub `SidecarGpuData` from `services/mod.rs`. -/
structure SidecarGpuData where
  temperature : Option ℚ
  fan_percent : Option ℚ
  deriving DecidableEq

/-- Stub `SidecarData` from `services/mod.rs`. -/
structure SidecarData where
  cpu : Option SidecarCpuData
  gpu : Option SidecarGpuData
  deriving DecidableEq

end Stub

/-! ## Baseline statistics record (`models/stats.rs`) -/

/-- `CpuStats` from `models/stats.rs`. -/
structure CpuStats where
  name : String
  usage : ℚ
  frequency : Nat
  cores : Nat
  logical_cores : Nat
  per_core_usage : List ℚ
  temperature : Option ℚ
  deriving DecidableEq

/-- `RamStats` from `models/stats.rs`. -/
structure RamStats where
  total : Nat
  used : Nat
  available : Nat
  usage_percent : ℚ
  deriving DecidableEq

/-- `GpuStats` from `models/stats.rs`; `temperature` and `fan_speed` are
`Option<u32>` in the source, hence `Option ℕ` here. -/
structure GpuStats where
  name : String
  usage : ℚ
  memory_total : Nat
  memory_used : Nat
  temperature : Option Nat
  fan_speed : Option Nat
  deriving DecidableEq

/-- `SystemInfo` from `models/stats.rs`. -/
structure SystemInfo where
  cpu_name : String
  cpu_cores : Nat
  cpu_threads : Nat
  ram_total : Nat
  gpu_name : Option String
  gpu_vram_total : Option Nat
  os_name : String
  os_version : String
  hostname : String
  uptime_seconds : Nat
  deriving DecidableEq

/-- `ProcessInfo` from `models/stats.rs`. -/
structure ProcessInfo where
  pid : Nat
  name : String
  cpu_usage : ℚ
  memory : Nat
  deriving DecidableEq

/-- `SystemStats` from `models/stats.rs`: the baseline record. -/
structure SystemStats where
  cpu : CpuStats
  ram : RamStats
  gpu : Option GpuStats
  system_info : SystemInfo
  processes : List ProcessInfo
  timestamp : Nat
  deriving DecidableEq

/-! ## Merge engine (`start_stats_emitter` in `lib.rs`) -/

/-- Rust `f32 as u32`: truncate toward zero, saturating at the `u32`
bounds (negative values clamp to `0`). -/
def ratToU32 (q : ℚ) : Nat :=
  min q.floor.toNat (2 ^ 32 - 1)

/-- The merge step of the stats-emitter loop in `lib.rs`, extracted as a
pure function of the baseline record and the latest sidecar snapshot. -/
def mergeStats (stats : SystemStats) (sidecar : Option Stub.SidecarData) : SystemStats :=
  match sidecar with
  | none => stats
  | some sidecar_data =>
    let stats1 := match sidecar_data.cpu with
      | some cpu_data =>
        match cpu_data.temperature with
        | some temp => { stats with cpu := { stats.cpu with temperature := some temp } }
        | none => stats
      | none => stats
    match sidecar_data.gpu with
    | some gpu_data =>
      match stats1.gpu with
      | some gpu =>
        let gpu1 := match gpu_data.temperature with
          | some temp => { gpu with temperature := some (ratToU32 temp) }
          | none => gpu
        let gpu2 :=
          if gpu1.fan_speed.isNone then
            match gpu_data.fan_percent with
            | some fan => { gpu1 with fan_speed := some (ratToU32 fan) }
            | none => gpu1
          else gpu1
        { stats1 with gpu := some gpu2 }
      | none => stats1
    | none => stats1

/-! ## Supervisor / reader / watchdog state machine (`sidecar.rs`)

`Machine.step` interleaves the operations the three components perform on
the shared store: the reader thread's loop body (`spawn_process` /
`spawn_standalone`), one iteration of the watchdog loop
(`sidecar_watcher`), and `SidecarManager::stop`.  Spawn success or
failure of a restart attempt is environmental and carried on the event.
`readerAlive` records whether a reader thread is consuming the stream;
`watchdogAlive` whether the watchdog loop is still iterating. -/

/-- The give-up message `format!("Sidecar crashed {} times, giving up",
MAX_RESTART_ATTEMPTS)` from `sidecar_watcher`. -/
def giveUpMsg : String :=
  "Sidecar crashed " ++ Nat.repr MAX_RESTART_ATTEMPTS ++ " times, giving up"

namespace Machine

/-- Global state: the shared store plus liveness of the two loops. -/
structure MachineState where
  store : SidecarState
  readerAlive : Bool
  watchdogAlive : Bool
  deriving DecidableEq

/-- Events: one successfully decoded line arriving at time `now`, the
reader hitting end-of-stream or a read error, one watchdog poll (with the
environment's verdict on a spawn attempt), and `SidecarManager::stop`. -/
inductive Ev where
  | readerLine (now : Nat) (d : SidecarData)
  | readerEof
  | wdPoll (spawnOk : Bool) (spawnErr : String)
  | svStop
  deriving DecidableEq

/-- One interleaved step.  `none` means the event is not enabled (its
thread is no longer running). -/
def step (m : MachineState) : Ev → Option MachineState
  | .readerLine now d =>
    if m.readerAlive then
      some { m with store := handleData now d m.store }
    else none
  | .readerEof =>
    if m.readerAlive then
      some { m with store := set_status .Stopped m.store, readerAlive := false }
    else none
  | .wdPoll spawnOk spawnErr =>
    if m.watchdogAlive then
      match get_status m.store with
      | .Stopped =>
        if can_restart m.store then
          let r := increment_restart_count m.store
          if spawnOk then
            some { m with store := set_status .Running r.2, readerAlive := true }
          else
            some { m with store := set_status (.Error spawnErr) r.2 }
        else
          some { m with store := set_status (.Error giveUpMsg) m.store,
                        watchdogAlive := false }
      | .Running =>
        if get_restart_count m.store > 0 then
          some { m with store := reset_restart_count m.store }
        else some m
      | .Error _ => some { m with watchdogAlive := false }
      | .NotStarted => some m
    else none
  | .svStop => some { m with store := set_status .Stopped m.store }

/-- Run a list of events from a state; `none` if any event is disabled. -/
def runEvents (m : MachineState) : List Ev → Option MachineState
  | [] => some m
  | e :: es =>
    match step m e with
    | some m' => runEvents m' es
    | none => none

/-- The state right after the successful initial spawn in `start_sidecar`:
status `Running`, counter reset, reader and watchdog threads started. -/
def initState : MachineState :=
  { store := { data := none, status := .Running, restartCount := 0,
               lastDataTime := none, countPoisoned := false },
    readerAlive := true, watchdogAlive := true }

/-- A state the system can reach from the initial successful spawn. -/
def Reachable (m : MachineState) : Prop :=
  ∃ es, runEvents initState es = some m

end Machine

/-! ## Snapshot decoding (`serde` derive on the structs in `sidecar.rs`)

A parsed JSON value and the field-wise decoder that the `Deserialize`
derive on `SidecarData`/`SidecarCpuData`/`SidecarGpuData` generates:
fields are looked up by name; an `Option` field that is missing or `null`
decodes to `none`; the `#[serde(default)]` sequence fields decode to `[]`
when missing; `timestamp` is a required integer in `i64` range. -/

/-- A JSON value (numbers as `ℚ`). -/
inductive Json where
  | null
  | bool (b : Bool)
  | num (q : ℚ)
  | str (s : String)
  | arr (xs : List Json)
  | obj (fields : List (String × Json))

/-- Find the value of a field in a JSON object. -/
def lookupField : List (String × Json) → String → Option Json
  | [], _ => none
  | (k, v) :: rest, key => if k = key then some v else lookupField rest key

/-- Decode an `Option<f32>` field from its looked-up value. -/
def decodeF32Opt : Option Json → Option (Option ℚ)
  | none => some none
  | some .null => some none
  | some (.num q) => some (some q)
  | some _ => none

/-- Decode an `Option<String>` field from its looked-up value. -/
def decodeStrOpt : Option Json → Option (Option String)
  | none => some none
  | some .null => some none
  | some (.str s) => some (some s)
  | some _ => none

/-- Decode one element of a `Vec<Option<f32>>`. -/
def decodeNumEntry : Json → Option (Option ℚ)
  | .null => some none
  | .num q => some (some q)
  | _ => none

/-- Decode the elements of a `Vec<Option<f32>>`. -/
def decodeNumEntries : List Json → Option (List (Option ℚ))
  | [] => some []
  | j :: js =>
    match decodeNumEntry j, decodeNumEntries js with
    | some v, some vs => some (v :: vs)
    | _, _ => none

/-- Decode a `#[serde(default)] Vec<Option<f32>>` field. -/
def decodeF32List : Option Json → Option (List (Option ℚ))
  | none => some []
  | some (.arr xs) => decodeNumEntries xs
  | some _ => none

/-- Decode `SidecarCpuData` from a JSON value. -/
def decodeCpu : Json → Option SidecarCpuData
  | .obj fs => do
    let name ← decodeStrOpt (lookupField fs "name")
    let temperature ← decodeF32Opt (lookupField fs "temperature")
    let package_temperature ← decodeF32Opt (lookupField fs "package_temperature")
    let core_temperatures ← decodeF32List (lookupField fs "core_temperatures")
    let max_temperature ← decodeF32Opt (lookupField fs "max_temperature")
    let power ← decodeF32Opt (lookupField fs "power")
    let core_powers ← decodeF32List (lookupField fs "core_powers")
    pure ⟨name, temperature, package_temperature, core_temperatures,
          max_temperature, power, core_powers⟩
  | _ => none

/-- Decode `SidecarGpuData` from a JSON value. -/
def decodeGpu : Json → Option SidecarGpuData
  | .obj fs => do
    let name ← decodeStrOpt (lookupField fs "name")
    let vendor ← decodeStrOpt (lookupField fs "vendor")
    let temperature ← decodeF32Opt (lookupField fs "temperature")
    let hot_spot_temperature ← decodeF32Opt (lookupField fs "hot_spot_temperature")
    let power ← decodeF32Opt (lookupField fs "power")
    let core_clock ← decodeF32Opt (lookupField fs "core_clock")
    let memory_clock ← decodeF32Opt (lookupField fs "memory_clock")
    let fan_speed ← decodeF32Opt (lookupField fs "fan_speed")
    let load ← decodeF32Opt (lookupField fs "load")
    pure ⟨name, vendor, temperature, hot_spot_temperature, power,
          core_clock, memory_clock, fan_speed, load⟩
  | _ => none

/-- Decode the elements of the GPU sequence. -/
def decodeGpus : List Json → Option (List SidecarGpuData)
  | [] => some []
  | j :: js =>
    match decodeGpu j, decodeGpus js with
    | some g, some gs => some (g :: gs)
    | _, _ => none

/-- Decode the `#[serde(default)] Vec<SidecarGpuData>` field. -/
def decodeGpuField : Option Json → Option (List SidecarGpuData)
  | none => some []
  | some (.arr xs) => decodeGpus xs
  | some _ => none

/-- Decode the `Option<SidecarCpuData>` field. -/
def decodeCpuField : Option Json → Option (Option SidecarCpuData)
  | none => some none
  | some .null => some none
  | some cj => (decodeCpu cj).map some

/-- Decode the required `i64` field. -/
def decodeI64 : Option Json → Option ℤ
  | some (.num q) =>
    if q.den = 1 ∧ -(2 ^ 63) ≤ q.num ∧ q.num < 2 ^ 63 then some q.num else none
  | _ => none

/-- Decode `SidecarData` (one snapshot line) from a JSON value. -/
def decodeSidecarData : Json → Option SidecarData
  | .obj fs => do
    let cpu ← decodeCpuField (lookupField fs "cpu")
    let gpu ← decodeGpuField (lookupField fs "gpu")
    let timestamp ← decodeI64 (lookupField fs "timestamp")
    let error ← decodeStrOpt (lookupField fs "error")
    pure ⟨cpu, gpu, timestamp, error⟩
  | _ => none

/-! ### A snapshot line rendered back to JSON

The encoder below builds, for a given snapshot, the JSON object whose
present fields are exactly the snapshot's present fields; every absent
optional field is omitted from the object (and `none` sequence entries
are rendered as `null`).  It is the test harness for the round-trip
property, not a translation of repository code. -/

/-- Render an `Option<f32>` field, omitting it when absent. -/
def encodeF32OptField (n : String) : Option ℚ → List (String × Json)
  | some q => [(n, .num q)]
  | none => []

/-- Render an `Option<String>` field, omitting it when absent. -/
def encodeStrOptField (n : String) : Option String → List (String × Json)
  | some s => [(n, .str s)]
  | none => []

/-- Render one `Vec<Option<f32>>` entry (`null` for `none`). -/
def encodeNumEntry : Option ℚ → Json
  | some q => .num q
  | none => .null

/-- Render a `Vec<Option<f32>>` field, omitting it when empty. -/
def encodeListField (n : String) (l : List (Option ℚ)) : List (String × Json) :=
  match l with
  | [] => []
  | _ :: _ => [(n, .arr (l.map encodeNumEntry))]

/-- Render `SidecarCpuData`. -/
def encodeCpu (c : SidecarCpuData) : Json :=
  .obj (encodeStrOptField "name" c.name
    ++ encodeF32OptField "temperature" c.temperature
    ++ encodeF32OptField "package_temperature" c.package_temperature
    ++ encodeListField "core_temperatures" c.core_temperatures
    ++ encodeF32OptField "max_temperature" c.max_temperature
    ++ encodeF32OptField "power" c.power
    ++ encodeListField "core_powers" c.core_powers)

/-- Render `SidecarGpuData`. -/
def encodeGpu (g : SidecarGpuData) : Json :=
  .obj (encodeStrOptField "name" g.name
    ++ encodeStrOptField "vendor" g.vendor
    ++ encodeF32OptField "temperature" g.temperature
    ++ encodeF32OptField "hot_spot_temperature" g.hot_spot_temperature
    ++ encodeF32OptField "power" g.power
    ++ encodeF32OptField "core_clock" g.core_clock
    ++ encodeF32OptField "memory_clock" g.memory_clock
    ++ encodeF32OptField "fan_speed" g.fan_speed
    ++ encodeF32OptField "load" g.load)

/-- Render the GPU sequence, omitting the field when empty. -/
def encodeGpuListField (n : String) (gs : List SidecarGpuData) : List (String × Json) :=
  match gs with
  | [] => []
  | _ :: _ => [(n, .arr (gs.map encodeGpu))]

/-- Render the optional CPU block, omitting it when absent. -/
def encodeCpuField : Option SidecarCpuData → List (String × Json)
  | some c => [("cpu", encodeCpu c)]
  | none => []

/-- Render a whole snapshot as a JSON object. -/
def encodeSidecarData (d : SidecarData) : Json :=
  .obj (encodeCpuField d.cpu
    ++ encodeGpuListField "gpu" d.gpu
    ++ [("timestamp", .num (d.timestamp : ℚ))]
    ++ encodeStrOptField "error" d.error)

/-! ### Round-trip lemmas -/

theorem lookupField_append (xs ys : List (String × Json)) (k : String) :
    lookupField (xs ++ ys) k =
      match lookupField xs k with
      | some v => some v
      | none => lookupField ys k := by
  induction xs with
  | nil => simp [lookupField]
  | cons p rest ih =>
    obtain ⟨a, b⟩ := p
    by_cases h : a = k <;> simp [lookupField, h, ih]

theorem lookup_skip_f32 (n : String) (v : Option ℚ) (key : String)
    (rest : List (String × Json)) (h : ¬n = key) :
    lookupField (encodeF32OptField n v ++ rest) key = lookupField rest key := by
  cases v <;> simp [encodeF32OptField, lookupField, h]

theorem lookup_skip_str (n : String) (v : Option String) (key : String)
    (rest : List (String × Json)) (h : ¬n = key) :
    lookupField (encodeStrOptField n v ++ rest) key = lookupField rest key := by
  cases v <;> simp [encodeStrOptField, lookupField, h]

theorem lookup_skip_list (n : String) (l : List (Option ℚ)) (key : String)
    (rest : List (String × Json)) (h : ¬n = key) :
    lookupField (encodeListField n l ++ rest) key = lookupField rest key := by
  cases l <;> simp [encodeListField, lookupField, h]

theorem lookup_f32_none (n : String) (v : Option ℚ) (key : String) (h : ¬n = key) :
    lookupField (encodeF32OptField n v) key = none := by
  cases v <;> simp [encodeF32OptField, lookupField, h]

theorem lookup_str_none (n : String) (v : Option String) (key : String) (h : ¬n = key) :
    lookupField (encodeStrOptField n v) key = none := by
  cases v <;> simp [encodeStrOptField, lookupField, h]

theorem lookup_list_none (n : String) (l : List (Option ℚ)) (key : String) (h : ¬n = key) :
    lookupField (encodeListField n l) key = none := by
  cases l <;> simp [encodeListField, lookupField, h]

theorem decodeF32Opt_lookup (n : String) (v : Option ℚ) (rest : List (String × Json))
    (h : lookupField rest n = none) :
    decodeF32Opt (lookupField (encodeF32OptField n v ++ rest) n) = some v := by
  cases v <;> simp [encodeF32OptField, lookupField, decodeF32Opt, h]

theorem decodeF32Opt_lookup_last (n : String) (v : Option ℚ) :
    decodeF32Opt (lookupField (encodeF32OptField n v) n) = some v := by
  cases v <;> simp [encodeF32OptField, lookupField, decodeF32Opt]

theorem decodeStrOpt_lookup (n : String) (v : Option String) (rest : List (String × Json))
    (h : lookupField rest n = none) :
    decodeStrOpt (lookupField (encodeStrOptField n v ++ rest) n) = some v := by
  cases v <;> simp [encodeStrOptField, lookupField, decodeStrOpt, h]

theorem decodeNumEntries_map (l : List (Option ℚ)) :
    decodeNumEntries (l.map encodeNumEntry) = some l := by
  induction l with
  | nil => rfl
  | cons a as ih => cases a <;> simp [decodeNumEntries, decodeNumEntry, encodeNumEntry, ih]

theorem decodeF32List_lookup (n : String) (l : List (Option ℚ)) (rest : List (String × Json))
    (h : lookupField rest n = none) :
    decodeF32List (lookupField (encodeListField n l ++ rest) n) = some l := by
  cases l with
  | nil => simp [encodeListField, decodeF32List, h]
  | cons a as =>
    simpa [encodeListField, lookupField, decodeF32List]
      using decodeNumEntries_map (a :: as)

theorem decodeF32List_lookup_last (n : String) (l : List (Option ℚ)) :
    decodeF32List (lookupField (encodeListField n l) n) = some l := by
  cases l with
  | nil => simp [encodeListField, decodeF32List, lookupField]
  | cons a as =>
    simpa [encodeListField, lookupField, decodeF32List]
      using decodeNumEntries_map (a :: as)

theorem decodeCpu_encode (c : SidecarCpuData) : decodeCpu (encodeCpu c) = some c := by
  simp [decodeCpu, encodeCpu, List.append_assoc,
    lookup_skip_str, lookup_skip_f32, lookup_skip_list,
    lookup_f32_none, lookup_str_none, lookup_list_none,
    decodeStrOpt_lookup, decodeF32Opt_lookup, decodeF32List_lookup,
    decodeF32Opt_lookup_last, decodeF32List_lookup_last]

theorem decodeGpu_encode (g : SidecarGpuData) : decodeGpu (encodeGpu g) = some g := by
  simp [decodeGpu, encodeGpu, List.append_assoc,
    lookup_skip_str, lookup_skip_f32,
    lookup_f32_none, lookup_str_none,
    decodeStrOpt_lookup, decodeF32Opt_lookup, decodeF32Opt_lookup_last]

theorem decodeGpus_map (gs : List SidecarGpuData) :
    decodeGpus (gs.map encodeGpu) = some gs := by
  induction gs with
  | nil => rfl
  | cons g rest ih => simp [decodeGpus, decodeGpu_encode, ih]

theorem lookup_skip_gpus (n : String) (gs : List SidecarGpuData) (key : String)
    (rest : List (String × Json)) (h : ¬n = key) :
    lookupField (encodeGpuListField n gs ++ rest) key = lookupField rest key := by
  cases gs <;> simp [encodeGpuListField, lookupField, h]

theorem lookup_skip_cpu (c : Option SidecarCpuData) (key : String)
    (rest : List (String × Json)) (h : ¬"cpu" = key) :
    lookupField (encodeCpuField c ++ rest) key = lookupField rest key := by
  cases c <;> simp [encodeCpuField, lookupField, h]

theorem decodeCpuField_encode (c0 : SidecarCpuData) :
    decodeCpuField (some (encodeCpu c0)) = some (some c0) := by
  have h1 : decodeCpuField (some (encodeCpu c0))
      = (decodeCpu (encodeCpu c0)).map some := rfl
  rw [h1, decodeCpu_encode]
  rfl

theorem decodeCpuField_lookup (c : Option SidecarCpuData) (rest : List (String × Json))
    (h : lookupField rest "cpu" = none) :
    decodeCpuField (lookupField (encodeCpuField c ++ rest) "cpu") = some c := by
  cases c with
  | none => simp [encodeCpuField, decodeCpuField, h]
  | some c0 =>
    have h1 : lookupField (encodeCpuField (some c0) ++ rest) "cpu"
        = some (encodeCpu c0) := by
      simp [encodeCpuField, lookupField]
    rw [h1, decodeCpuField_encode]

theorem decodeGpuField_lookup (gs : List SidecarGpuData) (rest : List (String × Json))
    (h : lookupField rest "gpu" = none) :
    decodeGpuField (lookupField (encodeGpuListField "gpu" gs ++ rest) "gpu") = some gs := by
  cases gs with
  | nil => simp [encodeGpuListField, decodeGpuField, h]
  | cons g grest =>
    simpa [encodeGpuListField, lookupField, decodeGpuField]
      using decodeGpus_map (g :: grest)

theorem decodeI64_intCast (t : ℤ) (h1 : -(2 ^ 63) ≤ t) (h2 : t < 2 ^ 63) :
    decodeI64 (some (.num (t : ℚ))) = some t := by
  norm_num at h1 h2
  simp [decodeI64, Rat.den_intCast, Rat.num_intCast]
  exact ⟨h1, h2⟩

theorem decodeStrOpt_lookup_last (n : String) (v : Option String) :
    decodeStrOpt (lookupField (encodeStrOptField n v) n) = some v := by
  cases v <;> simp [encodeStrOptField, lookupField, decodeStrOpt]

/-! ## Claim theorems -/

/-- C9: for every snapshot (with its timestamp in `i64` range), rendering
the snapshot as a JSON object whose present fields are exactly the
snapshot's present fields and decoding it back yields exactly the
snapshot: every present field's value round-trips unchanged, and every
absent optional field — at the top level, in the CPU block, in each GPU
entry, and inside the `core_temperatures`/`core_powers` sequences —
decodes to `none` (or to the empty sequence for the `serde(default)`
lists), never to a fabricated value. -/
theorem decode_encode_roundtrip (d : SidecarData)
    (h1 : -(2 ^ 63) ≤ d.timestamp) (h2 : d.timestamp < 2 ^ 63) :
    decodeSidecarData (encodeSidecarData d) = some d := by
  obtain ⟨cpu, gpu, ts, err⟩ := d
  simp only [encodeSidecarData, decodeSidecarData, List.append_assoc]
  simp [lookup_skip_cpu, lookup_skip_gpus, lookupField,
    decodeCpuField_lookup, decodeGpuField_lookup,
    lookup_str_none, decodeStrOpt_lookup_last,
    decodeI64_intCast _ h1 h2]

/-- Witness for C9 at a concrete snapshot with a mix of present and
absent optional fields. -/
theorem decode_encode_roundtrip_witness :
    decodeSidecarData (encodeSidecarData
      ⟨some ⟨some "Intel Core i5", some 65, none, [some 60, none], none, some (mkRat 71 2), []⟩,
       [⟨some "RTX", none, some 55, none, none, none, none, some 40, none⟩],
       1234567890, some "Admin rights required"⟩) = some
      ⟨some ⟨some "Intel Core i5", some 65, none, [some 60, none], none, some (mkRat 71 2), []⟩,
       [⟨some "RTX", none, some 55, none, none, none, none, some 40, none⟩],
       1234567890, some "Admin rights required"⟩ :=
  decode_encode_roundtrip _ (by norm_num) (by norm_num)

/-- C1 counterexample: the reason `"BINARY"` contains `"binary"`
case-insensitively and matches none of the first-group patterns, so the
claimed case-insensitive rules would classify it `BinaryNotFound`; the
classifier actually returns `Generic("BINARY")` because the second group
of patterns is matched case-sensitively. -/
theorem classify_counterexample :
    strContains (strToLower "BINARY") "admin" = false ∧
    strContains (strToLower "BINARY") "access denied" = false ∧
    strContains (strToLower "BINARY") "permission" = false ∧
    strContains (strToLower "BINARY") "binary" = true ∧
    SidecarStatusInfo.ofStatus (.Error "BINARY") = .Error "BINARY" ∧
    SidecarStatusInfo.ofStatus (.Error "BINARY") ≠ .BinaryNotFound := by
  decide

/-- C1 amended: `classify` applies substring rules in order, first match
wins — if the reason contains `"admin"`, `"access denied"` or
`"permission"` in any letter case the result is `RequiresAdmin`;
otherwise, if it contains `"not found"` or `"binary"` **case-sensitively**
the result is `BinaryNotFound`; otherwise the result is `Generic` carrying
the reason unchanged.  `NotStarted`, `Running` and `Stopped` pass through
1:1. -/
theorem classify_rules (msg : String) :
    SidecarStatusInfo.ofStatus .NotStarted = .NotStarted ∧
    SidecarStatusInfo.ofStatus .Running = .Running ∧
    SidecarStatusInfo.ofStatus .Stopped = .Stopped ∧
    ((strContains (strToLower msg) "admin" || strContains (strToLower msg) "access denied"
        || strContains (strToLower msg) "permission") = true →
      SidecarStatusInfo.ofStatus (.Error msg) = .RequiresAdmin) ∧
    ((strContains (strToLower msg) "admin" || strContains (strToLower msg) "access denied"
        || strContains (strToLower msg) "permission") = false →
      (strContains msg "not found" || strContains msg "binary") = true →
      SidecarStatusInfo.ofStatus (.Error msg) = .BinaryNotFound) ∧
    ((strContains (strToLower msg) "admin" || strContains (strToLower msg) "access denied"
        || strContains (strToLower msg) "permission") = false →
      (strContains msg "not found" || strContains msg "binary") = false →
      SidecarStatusInfo.ofStatus (.Error msg) = .Error msg) := by
  refine ⟨rfl, rfl, rfl, fun h1 => ?_, fun h1 h2 => ?_, fun h1 h2 => ?_⟩
  · simp [SidecarStatusInfo.ofStatus, h1]
  · simp [SidecarStatusInfo.ofStatus, h1, h2]
  · simp [SidecarStatusInfo.ofStatus, h1, h2]

/-- Witness for C1: `"ADMIN rights missing"` is classified
`RequiresAdmin` (case-insensitively), `"binary not found at /x"` is
classified `BinaryNotFound`, and `"disk full"` is classified
`Generic("disk full")`. -/
theorem classify_rules_witness :
    SidecarStatusInfo.ofStatus (.Error "ADMIN rights missing") = .RequiresAdmin ∧
    SidecarStatusInfo.ofStatus (.Error "binary not found at /x") = .BinaryNotFound ∧
    SidecarStatusInfo.ofStatus (.Error "disk full") = .Error "disk full" :=
  ⟨(classify_rules "ADMIN rights missing").2.2.2.1 (by decide),
   (classify_rules "binary not found at /x").2.2.2.2.1 (by decide) (by decide),
   (classify_rules "disk full").2.2.2.2.2 (by decide) (by decide)⟩

/-- C3: storing a snapshot whose error field is `some msg` makes
`get_status` return `Error(msg)`; `get_data` afterwards returns the
stored snapshot itself (all other fields intact); and `set_data` always
refreshes the last-data instant, error or not. -/
theorem set_data_spec (st : SidecarState) (d : SidecarData) (now : Nat) (msg : String) :
    (d.error = some msg → get_status (set_data now d st) = .Error msg) ∧
    get_data (set_data now d st) = some d ∧
    (set_data now d st).lastDataTime = some now := by
  refine ⟨fun h => ?_, ?_, ?_⟩ <;>
    cases hd : d.error <;>
      simp_all [set_data, get_status, get_data, set_status]

/-- Witness for C3 at a concrete erroring snapshot. -/
theorem set_data_spec_witness :
    get_status (set_data 5 ⟨none, [], 7, some "Admin rights required"⟩ SidecarState.new)
      = .Error "Admin rights required" ∧
    get_data (set_data 5 ⟨none, [], 7, some "Admin rights required"⟩ SidecarState.new)
      = some ⟨none, [], 7, some "Admin rights required"⟩ ∧
    (set_data 5 ⟨none, [], 7, some "Admin rights required"⟩ SidecarState.new).lastDataTime
      = some 5 :=
  ⟨(set_data_spec SidecarState.new _ 5 "Admin rights required").1 rfl,
   (set_data_spec SidecarState.new _ 5 "Admin rights required").2.1,
   (set_data_spec SidecarState.new _ 5 "Admin rights required").2.2⟩

/-- C10: when the restart-counter lock is poisoned, `get_restart_count`
returns `0`, `increment_restart_count` returns `0` and leaves the store
unchanged, and therefore `can_restart` returns `true` no matter how many
restarts have actually occurred — the budget is unenforceable in that
state rather than restarts being blocked. -/
theorem poisoned_counter_defaults (st : SidecarState) (h : st.countPoisoned = true) :
    get_restart_count st = 0 ∧
    increment_restart_count st = (0, st) ∧
    can_restart st = true := by
  refine ⟨?_, ?_, ?_⟩ <;>
    simp [get_restart_count, increment_restart_count, can_restart, h, MAX_RESTART_ATTEMPTS]

/-- Witness for C10 at a poisoned store that has already restarted five
times. -/
theorem poisoned_counter_defaults_witness :
    get_restart_count ⟨none, .Running, 5, none, true⟩ = 0 ∧
    increment_restart_count ⟨none, .Running, 5, none, true⟩ = (0, ⟨none, .Running, 5, none, true⟩) ∧
    can_restart ⟨none, .Running, 5, none, true⟩ = true :=
  poisoned_counter_defaults ⟨none, .Running, 5, none, true⟩ rfl

/-- C8 counterexample: a store whose last snapshot arrived 10500 ms ago —
an age strictly greater than the 10-second threshold — is not reported as
stalled, because `elapsed().as_secs()` truncates 10.5 s to 10 whole
seconds and the comparison is `> 10`. -/
theorem is_stalled_counterexample :
    (⟨none, .Running, 0, some 0, false⟩ : SidecarState).lastDataTime = some 0 ∧
    10500 - 0 > STALL_TIMEOUT_SECS * 1000 ∧
    is_stalled 10500 ⟨none, .Running, 0, some 0, false⟩ = false := by
  decide

/-- C8 amended: `is_stalled` returns `true` iff the last-data instant
exists and its age in whole elapsed seconds (milliseconds divided by 1000,
truncated) exceeds the 10-second threshold — equivalently, iff the age is
at least 11 seconds; it returns `false` whenever no snapshot has ever
been accepted. -/
theorem is_stalled_char (st : SidecarState) (now t : Nat) :
    (st.lastDataTime = none → is_stalled now st = false) ∧
    (st.lastDataTime = some t →
      (is_stalled now st = true ↔ (STALL_TIMEOUT_SECS + 1) * 1000 ≤ now - t)) := by
  constructor
  · intro h
    simp [is_stalled, h]
  · intro h
    simp only [is_stalled, h, STALL_TIMEOUT_SECS, decide_eq_true_eq]
    omega

/-- Witness for C8: a fresh store is never stalled, and a store whose
snapshot is exactly 11 s old is stalled. -/
theorem is_stalled_char_witness :
    is_stalled 999999 SidecarState.new = false ∧
    is_stalled 11000 ⟨none, .Running, 0, some 0, false⟩ = true :=
  ⟨(is_stalled_char SidecarState.new 999999 0).1 rfl,
   ((is_stalled_char ⟨none, .Running, 0, some 0, false⟩ 11000 0).2 rfl).mpr (by decide)⟩

/-- C7: a line that is empty after trimming, or that fails structural
decoding, leaves the store exactly as it was (snapshot, status, restart
counter and last-data instant all unchanged); and a malformed line fed
between two valid lines leaves the store's data equal to the second valid
line's snapshot. -/
theorem reader_skips_bad_lines (decode : String → Option SidecarData)
    (st : SidecarState) (l1 lb l2 : String) (d1 d2 : SidecarData) (n1 n2 n3 : Nat) :
    (strTrim lb = "" → processLine decode n2 lb st = st) ∧
    (decode (strTrim lb) = none → processLine decode n2 lb st = st) ∧
    (strTrim l1 ≠ "" → decode (strTrim l1) = some d1 →
      (strTrim lb = "" ∨ decode (strTrim lb) = none) →
      strTrim l2 ≠ "" → decode (strTrim l2) = some d2 →
      get_data (processLine decode n3 l2
        (processLine decode n2 lb (processLine decode n1 l1 st))) = some d2) := by
  refine ⟨fun h => ?_, fun h => ?_, fun h1 h2 h3 h4 h5 => ?_⟩
  · simp [processLine, h]
  · by_cases he : strTrim lb = "" <;> simp [processLine, he, h]
  · have hlast : ∀ st0 : SidecarState,
        get_data (processLine decode n3 l2 st0) = some d2 := by
      intro st0
      cases hde : d2.error <;>
        simp [processLine, h4, h5, handleData, set_data, set_status, get_data, hde]
    exact hlast _

/-- Witness for C7: a malformed line `"oops"` between the two valid lines
`"A"` and `"B"` leaves the store's data at the second valid line's
snapshot. -/
theorem reader_skips_bad_lines_witness :
    get_data (processLine
      (fun s => if s = "A" then some ⟨none, [], 1, none⟩
        else if s = "B" then some ⟨none, [], 2, none⟩ else none) 3 "B"
      (processLine
        (fun s => if s = "A" then some ⟨none, [], 1, none⟩
          else if s = "B" then some ⟨none, [], 2, none⟩ else none) 2 "oops"
        (processLine
          (fun s => if s = "A" then some ⟨none, [], 1, none⟩
            else if s = "B" then some ⟨none, [], 2, none⟩ else none) 1 "A"
          SidecarState.new))) = some ⟨none, [], 2, none⟩ :=
  (reader_skips_bad_lines
    (fun s => if s = "A" then some ⟨none, [], 1, none⟩
      else if s = "B" then some ⟨none, [], 2, none⟩ else none)
    SidecarState.new "A" "oops" "B" ⟨none, [], 1, none⟩ ⟨none, [], 2, none⟩ 1 2 3).2.2
    (by decide) (by decide) (Or.inr (by decide)) (by decide) (by decide)

/-- C6: merging with an absent snapshot returns the baseline identically
in every field, and when the snapshot's CPU block provides a temperature
the merged record's CPU temperature is exactly that value, overwriting
the baseline unconditionally. -/
theorem merge_cpu_temperature (stats : SystemStats) (sd : Stub.SidecarData)
    (c : Stub.SidecarCpuData) (t : ℚ) :
    mergeStats stats none = stats ∧
    (sd.cpu = some c → c.temperature = some t →
      (mergeStats stats (some sd)).cpu.temperature = some t) := by
  refine ⟨rfl, fun h1 h2 => ?_⟩
  obtain ⟨scpu, sgpu⟩ := sd
  replace h1 : scpu = some c := h1
  subst h1
  rcases sgpu with _ | gd <;> rcases hsg : stats.gpu with _ | g <;>
    simp [mergeStats, h2, hsg]

/-- Witness for C6: baseline CPU temperature `none` merged with a
snapshot CPU temperature `55` yields `55`. -/
theorem merge_cpu_temperature_witness :
    (mergeStats
      ⟨⟨"cpu", 0, 0, 0, 0, [], none⟩, ⟨0, 0, 0, 0⟩, none,
        ⟨"c", 0, 0, 0, none, none, "os", "v", "h", 0⟩, [], 0⟩
      (some ⟨some ⟨some 55⟩, none⟩)).cpu.temperature = some 55 :=
  (merge_cpu_temperature
    ⟨⟨"cpu", 0, 0, 0, 0, [], none⟩, ⟨0, 0, 0, 0⟩, none,
      ⟨"c", 0, 0, 0, none, none, "os", "v", "h", 0⟩, [], 0⟩
    ⟨some ⟨some 55⟩, none⟩ ⟨some 55⟩ 55).2 rfl rfl

/-- A baseline whose GPU entry has no fan-speed value. -/
def fanBase : SystemStats :=
  ⟨⟨"cpu", 0, 0, 0, 0, [], none⟩, ⟨0, 0, 0, 0⟩,
    some ⟨"gpu", 0, 0, 0, none, none⟩,
    ⟨"c", 0, 0, 0, none, none, "os", "v", "h", 0⟩, [], 0⟩

/-- A snapshot whose GPU block reports a fan speed of 70.5 %. -/
def fanSnap : Stub.SidecarData :=
  ⟨none, some ⟨none, some (mkRat 141 2)⟩⟩

/-- C5 counterexample: the baseline's GPU entry has no fan speed and the
snapshot provides 70.5, yet the merged record's fan speed is `70` — the
`u32` cast truncates, so the merged value does not equal the snapshot's
value. -/
theorem merge_fan_counterexample :
    fanBase.gpu = some ⟨"gpu", 0, 0, 0, none, none⟩ ∧
    fanSnap.gpu = some ⟨none, some (mkRat 141 2)⟩ ∧
    (mergeStats fanBase (some fanSnap)).gpu.map GpuStats.fan_speed = some (some 70) ∧
    ((70 : ℚ) ≠ mkRat 141 2) := by
  decide

/-- C5 amended: for a baseline with a GPU entry and a snapshot providing
a GPU fan speed — if the baseline's fan-speed field is absent, the merged
record's fan speed is the snapshot's value truncated by the `u32` cast
(hence equal to the snapshot's value whenever it is integral and in
range); if the baseline's fan-speed field is present, the merged record
keeps the baseline's value unchanged. -/
theorem merge_fan_precedence (stats : SystemStats) (g : GpuStats)
    (sd : Stub.SidecarData) (gd : Stub.SidecarGpuData) (f : ℚ)
    (hg : stats.gpu = some g) (hsd : sd.gpu = some gd) (hf : gd.fan_percent = some f) :
    (g.fan_speed = none →
      ((mergeStats stats (some sd)).gpu).map GpuStats.fan_speed
        = some (some (ratToU32 f))) ∧
    (g.fan_speed ≠ none →
      ((mergeStats stats (some sd)).gpu).map GpuStats.fan_speed = some g.fan_speed) := by
  obtain ⟨scpu, sgpu⟩ := sd
  replace hsd : sgpu = some gd := hsd
  subst hsd
  obtain ⟨gdt, gdf⟩ := gd
  replace hf : gdf = some f := hf
  subst hf
  constructor
  · intro hfan
    rcases scpu with _ | ⟨ct⟩
    · rcases gdt with _ | gt <;> simp [mergeStats, hg, hfan]
    · rcases ct with _ | t0 <;> rcases gdt with _ | gt <;>
        simp [mergeStats, hg, hfan]
  · intro hfan
    rcases hv : g.fan_speed with _ | v
    · exact absurd hv hfan
    · rcases scpu with _ | ⟨ct⟩
      · rcases gdt with _ | gt <;> simp [mergeStats, hg, hv]
      · rcases ct with _ | t0 <;> rcases gdt with _ | gt <;>
          simp [mergeStats, hg, hv]

/-- Witness for C5: an absent baseline fan speed is filled with the
snapshot's integral value `70`, and a present baseline value `40` is
preserved against the same snapshot. -/
theorem merge_fan_precedence_witness :
    (mergeStats fanBase (some ⟨none, some ⟨none, some 70⟩⟩)).gpu.map GpuStats.fan_speed
      = some (some (ratToU32 70)) ∧
    (mergeStats
      ⟨⟨"cpu", 0, 0, 0, 0, [], none⟩, ⟨0, 0, 0, 0⟩,
        some ⟨"gpu", 0, 0, 0, none, some 40⟩,
        ⟨"c", 0, 0, 0, none, none, "os", "v", "h", 0⟩, [], 0⟩
      (some ⟨none, some ⟨none, some 70⟩⟩)).gpu.map GpuStats.fan_speed = some (some 40) :=
  ⟨(merge_fan_precedence fanBase ⟨"gpu", 0, 0, 0, none, none⟩
      ⟨none, some ⟨none, some 70⟩⟩ ⟨none, some 70⟩ 70 rfl rfl rfl).1 rfl,
   (merge_fan_precedence
      ⟨⟨"cpu", 0, 0, 0, 0, [], none⟩, ⟨0, 0, 0, 0⟩,
        some ⟨"gpu", 0, 0, 0, none, some 40⟩,
        ⟨"c", 0, 0, 0, none, none, "os", "v", "h", 0⟩, [], 0⟩
      ⟨"gpu", 0, 0, 0, none, some 40⟩
      ⟨none, some ⟨none, some 70⟩⟩ ⟨none, some 70⟩ 70 rfl rfl rfl).2 (by decide)⟩

/-! ## Machine lemmas -/

theorem restartCount_set_status (s : SidecarStatus) (st : SidecarState) :
    (set_status s st).restartCount = st.restartCount := rfl

theorem restartCount_set_data (now : Nat) (d : SidecarData) (st : SidecarState) :
    (set_data now d st).restartCount = st.restartCount := by
  cases hd : d.error <;> simp [set_data, hd, set_status]

theorem restartCount_handleData (now : Nat) (d : SidecarData) (st : SidecarState) :
    (handleData now d st).restartCount = st.restartCount := by
  by_cases h : get_status st ≠ SidecarStatus.Running <;>
    simp [handleData, h, restartCount_set_data, restartCount_set_status]

theorem step_restartCount_le (m m' : Machine.MachineState) (e : Machine.Ev)
    (hs : Machine.step m e = some m')
    (hle : m.store.restartCount ≤ MAX_RESTART_ATTEMPTS) :
    m'.store.restartCount ≤ MAX_RESTART_ATTEMPTS := by
  cases e with
  | readerLine now d =>
    by_cases hr : m.readerAlive <;> simp [Machine.step, hr] at hs
    subst hs
    simpa [restartCount_handleData] using hle
  | readerEof =>
    by_cases hr : m.readerAlive <;> simp [Machine.step, hr] at hs
    subst hs
    simpa [restartCount_set_status] using hle
  | svStop =>
    simp [Machine.step] at hs
    subst hs
    simpa [restartCount_set_status] using hle
  | wdPoll ok msg =>
    by_cases hw : m.watchdogAlive <;> simp [Machine.step, hw] at hs
    cases hst : get_status m.store with
    | NotStarted =>
      simp [hst] at hs
      subst hs
      exact hle
    | Running =>
      by_cases hz : get_restart_count m.store > 0 <;> simp [hst, hz] at hs <;> subst hs
      · by_cases hp : m.store.countPoisoned
        · simpa [reset_restart_count, hp] using hle
        · simp [reset_restart_count, hp]
      · exact hle
    | Error r =>
      simp [hst] at hs
      subst hs
      exact hle
    | Stopped =>
      by_cases hc : can_restart m.store = true
      · simp [hst, hc] at hs
        have hlt : get_restart_count m.store < MAX_RESTART_ATTEMPTS := by
          simpa [can_restart] using hc
        cases ok <;> simp at hs <;> subst hs <;>
          by_cases hp : m.store.countPoisoned <;>
            simp_all [increment_restart_count, restartCount_set_status,
              get_restart_count, hp] <;> omega
      · simp [hst, hc] at hs
        subst hs
        simpa [restartCount_set_status] using hle

theorem runEvents_restartCount_le (es : List Machine.Ev) :
    ∀ m m' : Machine.MachineState, Machine.runEvents m es = some m' →
      m.store.restartCount ≤ MAX_RESTART_ATTEMPTS →
      m'.store.restartCount ≤ MAX_RESTART_ATTEMPTS := by
  induction es with
  | nil =>
    intro m m' h hle
    simp [Machine.runEvents] at h
    subst h
    exact hle
  | cons e rest ih =>
    intro m m' h hle
    unfold Machine.runEvents at h
    cases hstep : Machine.step m e with
    | none => rw [hstep] at h; cases h
    | some m1 =>
      rw [hstep] at h
      exact ih m1 m' h (step_restartCount_le m m1 e hstep hle)

/-- C4: in every reachable state the restart counter is at most the
budget of 3; a step increases the counter only when `can_restart()` held
(count < 3); and when the watchdog observes `Stopped` with the budget
exhausted, the status becomes the `Error` whose message names the budget
count, the watchdog loop ends, and no further watchdog step is enabled. -/
theorem restart_budget_bounded (m m' : Machine.MachineState) (e : Machine.Ev)
    (ok ok2 : Bool) (msg msg2 : String) :
    (Machine.Reachable m → m.store.restartCount ≤ MAX_RESTART_ATTEMPTS) ∧
    (Machine.step m e = some m' →
      m.store.restartCount < m'.store.restartCount → can_restart m.store = true) ∧
    (get_status m.store = .Stopped → can_restart m.store = false →
      Machine.step m (.wdPoll ok msg) = some m' →
      get_status m'.store = .Error giveUpMsg ∧
      strContains giveUpMsg (Nat.repr MAX_RESTART_ATTEMPTS) = true ∧
      m'.watchdogAlive = false ∧
      Machine.step m' (.wdPoll ok2 msg2) = none) := by
  refine ⟨fun hreach => ?_, fun hs hlt => ?_, fun hst hc hs => ?_⟩
  · obtain ⟨es, hrun⟩ := hreach
    exact runEvents_restartCount_le es Machine.initState m hrun (by decide)
  · by_contra hnc
    have hcount : m'.store.restartCount = m.store.restartCount ∨
        m'.store.restartCount = 0 := by
      cases e with
      | readerLine now d =>
        by_cases hr : m.readerAlive <;> simp [Machine.step, hr] at hs
        subst hs
        exact Or.inl (restartCount_handleData now d m.store)
      | readerEof =>
        by_cases hr : m.readerAlive <;> simp [Machine.step, hr] at hs
        subst hs
        exact Or.inl rfl
      | svStop =>
        simp [Machine.step] at hs
        subst hs
        exact Or.inl rfl
      | wdPoll ok1 msg1 =>
        by_cases hw : m.watchdogAlive <;> simp [Machine.step, hw] at hs
        cases hst : get_status m.store with
        | NotStarted => simp [hst] at hs; subst hs; exact Or.inl rfl
        | Running =>
          by_cases hz : get_restart_count m.store > 0 <;>
            simp [hst, hz] at hs <;> subst hs
          · by_cases hp : m.store.countPoisoned <;>
              simp [reset_restart_count, hp]
          · exact Or.inl rfl
        | Error r => simp [hst] at hs; subst hs; exact Or.inl rfl
        | Stopped =>
          simp [hst, hnc] at hs
          subst hs
          exact Or.inl (restartCount_set_status _ _)
    rcases hcount with h | h <;> omega
  · have hw : m.watchdogAlive = true := by
      cases hwa : m.watchdogAlive
      · simp [Machine.step, hwa] at hs
      · rfl
    simp [Machine.step, hw, hst, hc] at hs
    subst hs
    refine ⟨rfl, by decide, rfl, ?_⟩
    simp [Machine.step]

/-- The reachable state with the restart budget exhausted and the
process observed dead: three restarts have happened, each re-stopped. -/
def mBudget : Machine.MachineState :=
  ⟨⟨none, .Stopped, 3, none, false⟩, false, true⟩

/-- The state after the watchdog gives up from `mBudget`. -/
def mGaveUp : Machine.MachineState :=
  ⟨⟨none, .Error giveUpMsg, 3, none, false⟩, false, false⟩

/-- Witness for C4: after three crash/restart rounds the counter is
exactly at the budget, and the fourth observed `Stopped` makes the
watchdog emit the terminal give-up `Error` and stop. -/
theorem restart_budget_bounded_witness :
    mBudget.store.restartCount ≤ MAX_RESTART_ATTEMPTS ∧
    (get_status mGaveUp.store = .Error giveUpMsg ∧
      strContains giveUpMsg (Nat.repr MAX_RESTART_ATTEMPTS) = true ∧
      mGaveUp.watchdogAlive = false ∧
      Machine.step mGaveUp (.wdPoll false "y") = none) :=
  ⟨(restart_budget_bounded mBudget mBudget .readerEof true false "" "y").1
      ⟨[.readerEof, .wdPoll true "", .readerEof, .wdPoll true "",
        .readerEof, .wdPoll true "", .readerEof], by decide⟩,
   (restart_budget_bounded mBudget mGaveUp .readerEof true false "" "y").2.2
      (by decide) (by decide) (by decide)⟩

/-- A snapshot line carrying a child-reported error. -/
def dErr : SidecarData := ⟨none, [], 0, some "oops"⟩

/-- A well-formed snapshot line with no error. -/
def dGood : SidecarData := ⟨none, [], 1, none⟩

/-- The reachable state after the reader accepts `dErr`: status is
`Error("oops")` while the reader thread is still consuming lines. -/
def mErr : Machine.MachineState :=
  ⟨⟨some dErr, .Error "oops", 0, some 0, false⟩, true, true⟩

/-- The state after the reader then accepts `dGood`: back to `Running`. -/
def mRun : Machine.MachineState :=
  ⟨⟨some dGood, .Running, 0, some 1, false⟩, true, true⟩

/-- C2 counterexample: from the initial running state, one accepted line
carrying a child-reported error reaches a state with status
`Error("oops")`; from there the reader's very next well-formed line is a
step that sets the status back to `Running` — so `Error` is not terminal
in the implemented state machine. -/
theorem error_not_terminal_counterexample :
    Machine.runEvents Machine.initState [.readerLine 0 dErr] = some mErr ∧
    get_status mErr.store = .Error "oops" ∧
    Machine.step mErr (.readerLine 1 dGood) = some mRun ∧
    get_status mRun.store = .Running := by
  decide

/-- C2 amended: `Error` is terminal only from the watchdog's perspective —
a watchdog step taken in a state whose status is `Error(reason)` leaves
the store untouched (the loop exits); but the reader task leaves `Error`:
a successfully decoded error-free line sets the status to `Running`, and
end-of-stream sets it to `Stopped`, as does the supervisor's `stop()`. -/
theorem error_terminal_only_for_watchdog (m m' : Machine.MachineState) (r : String)
    (ok : Bool) (msg : String) (now : Nat) (d : SidecarData)
    (h : get_status m.store = .Error r) :
    (Machine.step m (.wdPoll ok msg) = some m' → m'.store = m.store) ∧
    (d.error = none → Machine.step m (.readerLine now d) = some m' →
      get_status m'.store = .Running) ∧
    (Machine.step m .readerEof = some m' → get_status m'.store = .Stopped) ∧
    (Machine.step m .svStop = some m' → get_status m'.store = .Stopped) := by
  refine ⟨fun hs => ?_, fun hde hs => ?_, fun hs => ?_, fun hs => ?_⟩
  · by_cases hw : m.watchdogAlive <;> simp [Machine.step, hw, h] at hs
    subst hs
    rfl
  · by_cases hr : m.readerAlive <;> simp [Machine.step, hr] at hs
    subst hs
    have hne : m.store.status = SidecarStatus.Error r := h
    simp [handleData, set_data, hde, set_status, get_status, hne]
  · by_cases hr : m.readerAlive <;> simp [Machine.step, hr] at hs
    subst hs
    rfl
  · simp [Machine.step] at hs
    subst hs
    rfl

/-- The state reached from `mErr` by a watchdog poll: the loop exits,
the store is untouched. -/
def mErrWd : Machine.MachineState :=
  ⟨⟨some dErr, .Error "oops", 0, some 0, false⟩, true, false⟩

/-- Witness for C2's amended statement at the concrete `Error("oops")`
state: the watchdog poll leaves the store unchanged, and the reader's
good line brings the status back to `Running`. -/
theorem error_terminal_only_for_watchdog_witness :
    mErrWd.store = mErr.store ∧ get_status mRun.store = .Running :=
  ⟨(error_terminal_only_for_watchdog mErr mErrWd "oops" true "" 1 dGood rfl).1 (by decide),
   (error_terminal_only_for_watchdog mErr mRun "oops" true "" 1 dGood rfl).2.1
     (by decide) (by decide)⟩
